import Mathlib

/-!
Shallow embedding of the NightGuard browser extension's scheduling and
filter-state reconciliation engine (background service worker) and of the
content-script filter application, together with proofs of the specified
properties.

Modelling conventions:
* JS numbers are modelled as `ℚ` (exact rational arithmetic); integer
  minute-of-day values as `ℤ`.
* `HH:MM` wall-clock strings are represented by their parsed
  `(hour, minute) : ℤ × ℤ` pairs.  The JS rendering
  `String(h).padStart(2,'0') + ":" + String(m).padStart(2,'0')` is
  `timeString`, and the JS parse `split(':').map(Number)` is the identity
  on this representation (`timeToMinutes` consumes the pair directly).
* The ambient browser environment (current wall-clock minutes, the `Date`
  used for the solar computation, the timezone offset) is passed
  explicitly as an `Env` record; the JS `Math` trigonometric primitives
  (floating point in the source) are abstracted as a `MathLib` record of
  rational-valued functions, so every definition stays computable.
* `chrome.storage.local` holds at most one `settings` record; it is
  modelled as `Option Settings`, and `{...DEFAULT_SETTINGS, ...stored}`
  as `readSettings`.
-/

namespace NightGuard

/-- An `HH:MM` wall-clock string, represented by its (hour, minute) pair. -/
abbrev Time := ℤ × ℤ

/-- Abstraction of the JS `Math` trigonometric primitives used by
`calculateSunTimes` (`Math.PI`, `Math.sin`, `Math.cos`, `Math.acos`);
the source computes with IEEE doubles, the model takes the primitives as
parameters. -/
structure MathLib where
  pi : ℚ
  sin : ℚ → ℚ
  cos : ℚ → ℚ
  acos : ℚ → ℚ

/-- JS truncation toward zero (the implicit integer part used by the JS
`%` operator). -/
def jsTrunc (q : ℚ) : ℤ :=
  if q < 0 then ⌈q⌉ else ⌊q⌋

/-- The JS remainder operator `a % b` on numbers: remainder of truncated
division, sign following the dividend. -/
def jsRem (a b : ℚ) : ℚ :=
  a - b * jsTrunc (a / b)

/-- `((mins % 1440) + 1440) % 1440` — the wrap into `[0, 1440)` performed
by `toTimeString`. -/
def wrap1440 (mins : ℚ) : ℚ :=
  jsRem (jsRem mins 1440 + 1440) 1440

/-- The numeric core of `toTimeString`:
`h = Math.floor(((mins % 1440) + 1440) % 1440 / 60)` and
`m = Math.floor(((mins % 1440) + 1440) % 1440 % 60)`. -/
def toTimePair (mins : ℚ) : Time :=
  (⌊wrap1440 mins / 60⌋, ⌊jsRem (wrap1440 mins) 60⌋)

/-- `String(n).padStart(2, '0')`. -/
def padStart2 (s : String) : String :=
  if s.length < 2 then "0" ++ s else s

/-- The string rendering of a time pair, as produced by `toTimeString`:
zero-padded `HH:MM`. -/
def timeString (t : Time) : String :=
  padStart2 (toString t.1.toNat) ++ ":" ++ padStart2 (toString t.2.toNat)

/-- `const clampedCos = Math.max(-1, Math.min(1, cosHourAngle))`. -/
def clamp (x : ℚ) : ℚ :=
  max (-1) (min 1 x)

/-- Result record of `calculateSunTimes` (`{sunrise, sunset}`), with the
`HH:MM` strings in their pair representation. -/
structure SunTimes where
  sunrise : Time
  sunset : Time
deriving DecidableEq

/-- `calculateSunTimes(lat, lng, date)` from the background script.
The `date` argument only enters through its day-of-year and its
`getTimezoneOffset()`, which are taken directly as parameters. -/
def calculateSunTimes (M : MathLib) (lat lng : ℚ) (dayOfYear : ℤ)
    (timezoneOffset : ℚ) : SunTimes :=
  let rad := M.pi / 180
  let declination := -23.45 * M.cos (rad * (360 / 365) * ((dayOfYear : ℚ) + 10))
  let cosHourAngle :=
    (M.cos (90.833 * rad) - M.sin (lat * rad) * M.sin (declination * rad)) /
      (M.cos (lat * rad) * M.cos (declination * rad))
  let clampedCos := clamp cosHourAngle
  let hourAngle := M.acos clampedCos / rad
  let solarNoon := 720 - 4 * lng
  let sunriseMinutes := solarNoon - hourAngle * 4
  let sunsetMinutes := solarNoon + hourAngle * 4
  let sunriseLocal := sunriseMinutes - timezoneOffset
  let sunsetLocal := sunsetMinutes - timezoneOffset
  { sunrise := toTimePair sunriseLocal, sunset := toTimePair sunsetLocal }

/-- `timeToMinutes(timeStr)`: minutes since midnight of an `HH:MM` time. -/
def timeToMinutes (t : Time) : ℤ :=
  t.1 * 60 + t.2

/-- `isInActiveWindow(startTime, endTime)`, with the ambient
`getCurrentMinutes()` passed explicitly as `now`. -/
def isInActiveWindow (now : ℤ) (startTime endTime : Time) : Bool :=
  let start := timeToMinutes startTime
  let stop := timeToMinutes endTime
  if start ≤ stop then
    decide (start ≤ now ∧ now < stop)
  else
    -- Wraps midnight (e.g., 21:00 to 07:00)
    decide (start ≤ now ∨ now < stop)

/-- The persisted settings record (shape of `DEFAULT_SETTINGS`). -/
@[ext] structure Settings where
  enabled : Bool
  mode : String
  scheduleType : String
  startTime : Time
  endTime : Time
  latitude : Option ℚ
  longitude : Option ℚ
  intensity : ℚ
  currentIntensity : ℚ
  isActive : Bool
  manualActive : Bool
deriving DecidableEq

/-- `DEFAULT_SETTINGS` from the background script. -/
def DEFAULT_SETTINGS : Settings :=
  { enabled := true
    mode := "bluelight"
    scheduleType := "manual"
    startTime := (21, 0)
    endTime := (7, 0)
    latitude := none
    longitude := none
    intensity := 80
    currentIntensity := 0
    isActive := false
    manualActive := false }

/-- JS truthiness of a nullable number field (`null` and `0` are falsy). -/
def jsTruthy (o : Option ℚ) : Bool :=
  match o with
  | none => false
  | some x => decide (x ≠ 0)

/-- `{...DEFAULT_SETTINGS, ...(result.settings || {})}`: the stored
record merged over the defaults (a stored full record shadows every
default field). -/
def readSettings (stored : Option Settings) : Settings :=
  stored.getD DEFAULT_SETTINGS

/-- `calculateCurrentIntensity(settings)`, with the ambient current
minutes passed explicitly. -/
def calculateCurrentIntensity (now : ℤ) (s : Settings) : ℚ :=
  if isInActiveWindow now s.startTime s.endTime then s.intensity else 0

/-- The ambient environment of one reconciliation cycle: the current
wall-clock minutes, the `Math` primitives, and the `new Date()` data
consumed by `calculateSunTimes`. -/
structure Env where
  nowMinutes : ℤ
  M : MathLib
  dayOfYear : ℤ
  timezoneOffset : ℚ

/-- The auto-schedule resolution step shared verbatim by `updateFilter`
and the `GET_STATUS` handler: when `scheduleType === 'auto' &&
settings.latitude && settings.longitude`, overwrite `startTime`/`endTime`
with the computed sunset/sunrise. -/
def resolveSchedule (env : Env) (s : Settings) : Settings :=
  if s.scheduleType == "auto" && jsTruthy s.latitude && jsTruthy s.longitude then
    let sunTimes := calculateSunTimes env.M (s.latitude.getD 0) (s.longitude.getD 0)
      env.dayOfYear env.timezoneOffset
    { s with startTime := sunTimes.sunset, endTime := sunTimes.sunrise }
  else
    s

/-- The `UPDATE_FILTER` message built by `applyToAllTabs` and sent to
every rendering target. -/
structure Broadcast where
  mode : String
  intensity : ℚ
  enabled : Bool
deriving DecidableEq

/-- The message body of `applyToAllTabs(settings, currentIntensity)`. -/
def applyToAllTabsMsg (s : Settings) (currentIntensity : ℚ) : Broadcast :=
  { mode := s.mode
    intensity := currentIntensity
    enabled := s.enabled && decide (currentIntensity > 0) }

/-- `updateFilter()`: one reconciliation cycle.  Returns the record
persisted by `chrome.storage.local.set({settings})` together with the
broadcast message. -/
def updateFilter (env : Env) (stored : Option Settings) : Settings × Broadcast :=
  let settings := readSettings stored
  if !settings.enabled then
    let s := { settings with currentIntensity := 0, isActive := false }
    (s, applyToAllTabsMsg s 0)
  else
    let s1 := resolveSchedule env settings
    let currentIntensity :=
      if s1.manualActive then s1.intensity
      else calculateCurrentIntensity env.nowMinutes s1
    let s2 := { s1 with currentIntensity := currentIntensity,
                        isActive := decide (currentIntensity > 0) }
    (s2, applyToAllTabsMsg s2 currentIntensity)

/-- The `GET_STATUS` branch of the background message listener: read,
merge defaults, resolve the auto schedule, recompute `currentIntensity`
and `isActive`, and answer with the resulting record. -/
def getStatus (env : Env) (stored : Option Settings) : Settings :=
  let settings := resolveSchedule env (readSettings stored)
  let ci :=
    if !settings.enabled then 0
    else if settings.manualActive then settings.intensity
    else calculateCurrentIntensity env.nowMinutes settings
  { settings with currentIntensity := ci, isActive := decide (ci > 0) }

/-- Messages handled by the background `chrome.runtime.onMessage`
listener. -/
inductive Message where
  | GET_STATUS
  | UPDATE_SETTINGS (s : Settings)
  | TOGGLE
  | FORCE_UPDATE

/-- Responses sent back by `sendResponse`. -/
inductive Response where
  | status (settings : Settings)
  | success (ok : Bool)
  | toggled (settings : Settings)

/-- The background message listener: for each message, the response and
the storage contents after the handler (including any `updateFilter` it
triggers) has run. -/
def handleMessage (env : Env) (msg : Message) (stored : Option Settings) :
    Response × Option Settings :=
  match msg with
  | .GET_STATUS =>
    (.status (getStatus env stored), stored)
  | .UPDATE_SETTINGS s =>
    (.success true, some (updateFilter env (some s)).1)
  | .TOGGLE =>
    let s := readSettings stored
    let s' := { s with enabled := !s.enabled }
    (.toggled s', some (updateFilter env (some s')).1)
  | .FORCE_UPDATE =>
    (.success true, some (updateFilter env stored).1)

/-- The per-treatment intensities a content script applies
(`applyBlueLight` / `applyDarkMode` arguments). -/
structure AppliedFilters where
  blueLight : ℚ
  darkMode : ℚ
deriving DecidableEq

/-- `updateFilter(data)` from the content script: which treatment is
applied at which intensity.  `none` models the fall-through where no
branch matches (no apply call is made, prior visual state is kept). -/
def contentUpdateFilter (mode : String) (intensity : ℚ) (enabled : Bool) :
    Option AppliedFilters :=
  if !enabled || intensity ≤ 0 then
    some { blueLight := 0, darkMode := 0 }
  else if mode == "bluelight" then
    some { blueLight := intensity, darkMode := 0 }
  else if mode == "darkmode" then
    some { blueLight := 0, darkMode := intensity }
  else if mode == "both" then
    -- dark mode slightly less intense when combined
    some { blueLight := intensity, darkMode := intensity * 0.7 }
  else
    none

/-- The specified effective-intensity formula, written from the spec's
words (`enabled ? (manualActive ? intensity : (inWindow ? intensity : 0))
: 0`), with the active window resolved from the schedule (solar in auto
mode, stored times otherwise).  Used to compare the reconciliation
cycle's computation against the spec. -/
def effectiveIntensitySpec (env : Env) (s : Settings) : ℚ :=
  if s.enabled then
    if s.manualActive then s.intensity
    else if isInActiveWindow env.nowMinutes (resolveSchedule env s).startTime
        (resolveSchedule env s).endTime then s.intensity
    else 0
  else 0

/-- A valid zero-padded `HH:MM` string: rendered from an hour in
`[0, 24)` and a minute in `[0, 60)`. -/
def validHHMM (s : String) : Prop :=
  ∃ h m : ℕ, h < 24 ∧ m < 60 ∧
    s = padStart2 (toString h) ++ ":" ++ padStart2 (toString m)

/-- A concrete instantiation of the abstract `Math` primitives, for
evaluating the model at specific inputs. -/
def mathLib0 : MathLib :=
  { pi := 0, sin := fun _ => 0, cos := fun _ => 0, acos := fun _ => 0 }

/-- A concrete environment at a given minute of the day. -/
def mkEnv (now : ℤ) : Env :=
  { nowMinutes := now, M := mathLib0, dayOfYear := 0, timezoneOffset := 0 }

/-- The spec's scenario record: `startTime=21:00, endTime=07:00,
enabled=true, manualActive=false, intensity=80`. -/
def scenarioSettings : Settings :=
  { DEFAULT_SETTINGS with
    startTime := (21, 0), endTime := (7, 0), enabled := true,
    manualActive := false, intensity := 80 }

/-- A concrete auto-schedule record with coordinates present and manual
times `21:00`–`07:00` stored. -/
def autoSettings : Settings :=
  { DEFAULT_SETTINGS with
    scheduleType := "auto", latitude := some 50, longitude := some 10,
    startTime := (21, 0), endTime := (7, 0) }

/-- A concrete record that is disabled but manually overridden. -/
def disabledOverrideSettings : Settings :=
  { DEFAULT_SETTINGS with enabled := false, manualActive := true, intensity := 80 }

/-- `s` with the master switch on, `scheduleType = auto` and the given
coordinates present. -/
def withAutoCoords (s : Settings) (la lo : ℚ) : Settings :=
  { s with enabled := true, scheduleType := "auto",
           latitude := some la, longitude := some lo }

/-! ### Helper lemmas -/

@[simp] theorem resolveSchedule_enabled (env : Env) (s : Settings) :
    (resolveSchedule env s).enabled = s.enabled := by
  unfold resolveSchedule; split <;> rfl

@[simp] theorem resolveSchedule_manualActive (env : Env) (s : Settings) :
    (resolveSchedule env s).manualActive = s.manualActive := by
  unfold resolveSchedule; split <;> rfl

@[simp] theorem resolveSchedule_intensity (env : Env) (s : Settings) :
    (resolveSchedule env s).intensity = s.intensity := by
  unfold resolveSchedule; split <;> rfl

@[simp] theorem resolveSchedule_mode (env : Env) (s : Settings) :
    (resolveSchedule env s).mode = s.mode := by
  unfold resolveSchedule; split <;> rfl

@[simp] theorem resolveSchedule_scheduleType (env : Env) (s : Settings) :
    (resolveSchedule env s).scheduleType = s.scheduleType := by
  unfold resolveSchedule; split <;> rfl

@[simp] theorem resolveSchedule_latitude (env : Env) (s : Settings) :
    (resolveSchedule env s).latitude = s.latitude := by
  unfold resolveSchedule; split <;> rfl

@[simp] theorem resolveSchedule_longitude (env : Env) (s : Settings) :
    (resolveSchedule env s).longitude = s.longitude := by
  unfold resolveSchedule; split <;> rfl

/-! ### C1 — window-predicate semantics -/

/-- C1: for every pair of `HH:MM` times and every current minute-of-day,
`isInActiveWindow` is true iff `start ≤ now < end` when `start ≤ end`,
and iff `now ≥ start ∨ now < end` when `start > end` (window wraps
midnight); so the start boundary is inclusive and the end boundary
exclusive in both shapes. -/
theorem C1_window_semantics (h1 m1 h2 m2 now : ℤ)
    (hh1 : 0 ≤ h1 ∧ h1 < 24) (hm1 : 0 ≤ m1 ∧ m1 < 60)
    (hh2 : 0 ≤ h2 ∧ h2 < 24) (hm2 : 0 ≤ m2 ∧ m2 < 60)
    (hnow : 0 ≤ now ∧ now < 1440) :
    (timeToMinutes (h1, m1) ≤ timeToMinutes (h2, m2) →
      (isInActiveWindow now (h1, m1) (h2, m2) = true ↔
        timeToMinutes (h1, m1) ≤ now ∧ now < timeToMinutes (h2, m2))) ∧
    (timeToMinutes (h2, m2) < timeToMinutes (h1, m1) →
      (isInActiveWindow now (h1, m1) (h2, m2) = true ↔
        now ≥ timeToMinutes (h1, m1) ∨ now < timeToMinutes (h2, m2))) := by
  constructor <;> intro h
  · simp [isInActiveWindow, h]
  · simp [isInActiveWindow, not_le.mpr h, or_comm, ge_iff_le]

/-- Witness for C1 at `startTime = 21:00`, `endTime = 07:00`,
`now = 23:00` (wrapping window, inside). -/
theorem C1_window_semantics_witness :
    isInActiveWindow 1380 (21, 0) (7, 0) = true :=
  ((C1_window_semantics 21 0 7 0 1380 (by norm_num) (by norm_num)
      (by norm_num) (by norm_num) (by norm_num)).2 (by norm_num [timeToMinutes])).mpr
    (by norm_num [timeToMinutes])

/-! ### C9 — GET_STATUS does not write storage -/

/-- C9: handling a `GET_STATUS` message leaves the persisted settings
record exactly as it was; the recomputed fields exist only in the
returned response. -/
theorem C9_get_status_no_write (env : Env) (stored : Option Settings) :
    (handleMessage env .GET_STATUS stored).2 = stored ∧
    (handleMessage env .GET_STATUS stored).1 = .status (getStatus env stored) :=
  ⟨rfl, rfl⟩

/-! ### C10 — combined mode intensities in the content script -/

/-- C10: on an `UPDATE_FILTER` message with `enabled = true`,
`intensity > 0` and `mode = "both"`, the content script applies the
blue-light overlay at the full intensity and the dark-mode treatment at
`0.7` times that intensity — which is strictly less than full. -/
theorem C10_both_mode (i : ℚ) (hi : 0 < i) :
    contentUpdateFilter "both" i true =
      some { blueLight := i, darkMode := i * 0.7 } ∧ i * 0.7 < i := by
  constructor
  · simp only [contentUpdateFilter]
    rw [if_neg (by simp [hi]), if_neg (by simp), if_neg (by simp), if_pos (by simp)]
  · nlinarith

/-- Witness for C10 at intensity `80`. -/
theorem C10_both_mode_witness :
    contentUpdateFilter "both" 80 true =
      some { blueLight := 80, darkMode := 80 * 0.7 } ∧ (80 : ℚ) * 0.7 < 80 :=
  C10_both_mode 80 (by norm_num)

/-! ### C2 — the effective-intensity formula of the reconciliation cycle -/

/-- C2: the `currentIntensity` persisted by a reconciliation cycle
equals `enabled ? (manualActive ? intensity : (inWindow ? intensity :
0)) : 0`; in particular it is `0` whenever `enabled = false`, regardless
of every other field. -/
theorem C2_effective_intensity (env : Env) (s : Settings) :
    (updateFilter env (some s)).1.currentIntensity = effectiveIntensitySpec env s ∧
    (updateFilter env (some { s with enabled := false })).1.currentIntensity = 0 := by
  constructor
  · cases hE : s.enabled
    · simp [updateFilter, readSettings, effectiveIntensitySpec, hE]
    · cases hM : s.manualActive <;>
        simp [updateFilter, readSettings, effectiveIntensitySpec, hE, hM,
          calculateCurrentIntensity]
  · simp [updateFilter, readSettings]

/-! ### C5 — manual override (corrected: requires `enabled = true`) -/

/-- C5 counterexample: a record with `manualActive = true` but
`enabled = false` and `intensity = 80` gets effective intensity `0`, not
`80`, so the claim fails as stated over every settings record. -/
theorem C5_counterexample :
    disabledOverrideSettings.manualActive = true ∧
    disabledOverrideSettings.intensity = 80 ∧
    (updateFilter (mkEnv 0) (some disabledOverrideSettings)).1.currentIntensity = 0 ∧
    (updateFilter (mkEnv 0) (some disabledOverrideSettings)).1.currentIntensity ≠
      disabledOverrideSettings.intensity := by
  refine ⟨rfl, rfl, ?_, ?_⟩ <;>
    norm_num [updateFilter, readSettings, disabledOverrideSettings, DEFAULT_SETTINGS]

/-- C5 (amended): for every settings record with `enabled = true` and
`manualActive = true`, and every instant, the reconciliation cycle's
effective intensity equals the user-selected `intensity`, regardless of
the schedule window. -/
theorem C5_manual_override (env : Env) (s : Settings) :
    (updateFilter env
        (some { s with enabled := true, manualActive := true })).1.currentIntensity =
      s.intensity := by
  simp [updateFilter, readSettings]

/-! ### C3 — solar times and persistence (corrected: they are persisted) -/

/-- C3 counterexample: with `scheduleType = auto`, coordinates present
and stored manual times `21:00`–`07:00`, one reconciliation cycle
persists the computed solar window (here `11:20`) over the stored
`startTime` — the stored manual times are not preserved. -/
theorem C3_counterexample :
    autoSettings.startTime = (21, 0) ∧ autoSettings.endTime = (7, 0) ∧
    (updateFilter (mkEnv 0) (some autoSettings)).1.startTime = (11, 20) ∧
    (updateFilter (mkEnv 0) (some autoSettings)).1.startTime ≠ autoSettings.startTime := by
  refine ⟨rfl, rfl, ?_, ?_⟩ <;>
    norm_num [updateFilter, readSettings, resolveSchedule, autoSettings,
      DEFAULT_SETTINGS, jsTruthy, calculateSunTimes, clamp, toTimePair, wrap1440,
      jsRem, jsTrunc, mkEnv, mathLib0, calculateCurrentIntensity, isInActiveWindow,
      timeToMinutes]

/-- C3 (amended): when `scheduleType = auto` and latitude/longitude are
present (truthy), the computed solar sunset/sunrise times are used as
the effective window of the cycle AND are persisted into the stored
settings record, overwriting the stored `startTime`/`endTime`. -/
theorem C3_solar_window_persisted (env : Env) (s : Settings) (la lo : ℚ)
    (hla : la ≠ 0) (hlo : lo ≠ 0) :
    (updateFilter env (some (withAutoCoords s la lo))).1.startTime =
      (calculateSunTimes env.M la lo env.dayOfYear env.timezoneOffset).sunset ∧
    (updateFilter env (some (withAutoCoords s la lo))).1.endTime =
      (calculateSunTimes env.M la lo env.dayOfYear env.timezoneOffset).sunrise ∧
    (updateFilter env (some (withAutoCoords s la lo))).1.currentIntensity =
      (if s.manualActive then s.intensity
       else if isInActiveWindow env.nowMinutes
           (calculateSunTimes env.M la lo env.dayOfYear env.timezoneOffset).sunset
           (calculateSunTimes env.M la lo env.dayOfYear env.timezoneOffset).sunrise
         then s.intensity else 0) := by
  refine ⟨?_, ?_, ?_⟩ <;>
    cases hM : s.manualActive <;>
      simp [updateFilter, readSettings, resolveSchedule, withAutoCoords, jsTruthy,
        hla, hlo, hM, calculateCurrentIntensity]

/-- Witness for C3 (amended) at a concrete auto-schedule record. -/
theorem C3_solar_window_persisted_witness :
    (updateFilter (mkEnv 0) (some (withAutoCoords DEFAULT_SETTINGS 50 10))).1.startTime =
      (calculateSunTimes mathLib0 50 10 0 0).sunset :=
  (C3_solar_window_persisted (mkEnv 0) DEFAULT_SETTINGS 50 10
    (by norm_num) (by norm_num)).1

/-! ### C8 — the wrap-around scenario -/

/-- C8: with `startTime = 21:00`, `endTime = 07:00`, `enabled = true`,
`manualActive = false`, `intensity = 80`, the computed effective
intensity is `80` at `23:00` (minute 1380), `0` at `08:00` (minute 480),
and `80` at `06:59` (minute 419). -/
theorem C8_scenario :
    (updateFilter (mkEnv 1380) (some scenarioSettings)).1.currentIntensity = 80 ∧
    (updateFilter (mkEnv 480) (some scenarioSettings)).1.currentIntensity = 0 ∧
    (updateFilter (mkEnv 419) (some scenarioSettings)).1.currentIntensity = 80 := by
  refine ⟨?_, ?_, ?_⟩ <;>
    norm_num [updateFilter, readSettings, resolveSchedule, scenarioSettings,
      DEFAULT_SETTINGS, jsTruthy, calculateCurrentIntensity, isInActiveWindow,
      timeToMinutes, mkEnv, mathLib0]

/-! ### C4 — GET_STATUS recomputes the derived fields -/

theorem resolveSchedule_set_derived (env : Env) (s : Settings) (x : ℚ) (b : Bool) :
    resolveSchedule env { s with currentIntensity := x, isActive := b } =
      { resolveSchedule env s with currentIntensity := x, isActive := b } := by
  by_cases h : (s.scheduleType == "auto" && jsTruthy s.latitude
      && jsTruthy s.longitude) = true <;>
    simp [resolveSchedule, h]

/-- C4: the `GET_STATUS` response is insensitive to the cached
`currentIntensity`/`isActive` read from storage, and its derived fields
are freshly recomputed from the other fields and the current instant via
the enabled/manualActive/window logic. -/
theorem C4_get_status_fresh (env : Env) (s : Settings) (x : ℚ) (b : Bool) :
    getStatus env (some { s with currentIntensity := x, isActive := b }) =
      getStatus env (some s) ∧
    (getStatus env (some s)).currentIntensity = effectiveIntensitySpec env s ∧
    (getStatus env (some s)).isActive = decide (effectiveIntensitySpec env s > 0) := by
  refine ⟨?_, ?_, ?_⟩
  · simp [getStatus, readSettings, resolveSchedule_set_derived,
      calculateCurrentIntensity]
  · cases hE : s.enabled <;> cases hM : s.manualActive <;>
      simp [getStatus, readSettings, effectiveIntensitySpec, hE, hM,
        calculateCurrentIntensity]
  · cases hE : s.enabled <;> cases hM : s.manualActive <;>
      simp [getStatus, readSettings, effectiveIntensitySpec, hE, hM,
        calculateCurrentIntensity]

/-! ### C7 — idempotence of the reconciliation cycle -/

theorem updateFilter_fixpoint (env : Env) (s : Settings) :
    (updateFilter env (some (updateFilter env (some s)).1)).1 =
      (updateFilter env (some s)).1 := by
  cases hE : s.enabled
  · simp [updateFilter, readSettings, hE]
  · cases hM : s.manualActive <;>
      by_cases hC : (s.scheduleType == "auto" && jsTruthy s.latitude
          && jsTruthy s.longitude) = true <;>
        simp [updateFilter, readSettings, resolveSchedule, hE, hM, hC,
          calculateCurrentIntensity]

/-- C7: running `updateFilter` twice in immediate succession (same
instant, same date, no intervening settings change) leaves the same
persisted `currentIntensity` and `isActive` as running it once. -/
theorem C7_idempotent (env : Env) (stored : Option Settings) :
    (updateFilter env (some (updateFilter env stored).1)).1.currentIntensity =
      (updateFilter env stored).1.currentIntensity ∧
    (updateFilter env (some (updateFilter env stored).1)).1.isActive =
      (updateFilter env stored).1.isActive := by
  have h : updateFilter env stored = updateFilter env (some (readSettings stored)) := by
    cases stored <;> rfl
  rw [h, updateFilter_fixpoint]
  exact ⟨rfl, rfl⟩

/-! ### C6 — safety of the solar computation -/

theorem jsTrunc_nonneg_eq {q : ℚ} (h : 0 ≤ q) : jsTrunc q = ⌊q⌋ := by
  simp [jsTrunc, not_lt.mpr h]

theorem jsTrunc_neg_eq {q : ℚ} (h : q < 0) : jsTrunc q = ⌈q⌉ := by
  simp [jsTrunc, h]

theorem jsRem_nonneg {a b : ℚ} (ha : 0 ≤ a) (hb : 0 < b) : 0 ≤ jsRem a b := by
  have hq : 0 ≤ a / b := div_nonneg ha hb.le
  rw [jsRem, jsTrunc_nonneg_eq hq]
  have h1 : (⌊a / b⌋ : ℚ) ≤ a / b := Int.floor_le _
  have h2 : b * (⌊a / b⌋ : ℚ) ≤ b * (a / b) := mul_le_mul_of_nonneg_left h1 hb.le
  have h3 : b * (a / b) = a := by field_simp
  linarith

theorem jsRem_lt {a b : ℚ} (ha : 0 ≤ a) (hb : 0 < b) : jsRem a b < b := by
  have hq : 0 ≤ a / b := div_nonneg ha hb.le
  rw [jsRem, jsTrunc_nonneg_eq hq]
  have h1 : a / b < (⌊a / b⌋ : ℚ) + 1 := Int.lt_floor_add_one _
  have h2 : b * (a / b) < b * ((⌊a / b⌋ : ℚ) + 1) := by
    exact mul_lt_mul_of_pos_left h1 hb
  have h3 : b * (a / b) = a := by field_simp
  nlinarith

theorem jsRem_le_zero {a b : ℚ} (ha : a < 0) (hb : 0 < b) : jsRem a b ≤ 0 := by
  have hq : a / b < 0 := div_neg_of_neg_of_pos ha hb
  rw [jsRem, jsTrunc_neg_eq hq]
  have h1 : a / b ≤ (⌈a / b⌉ : ℚ) := Int.le_ceil _
  have h2 : b * (a / b) ≤ b * (⌈a / b⌉ : ℚ) := mul_le_mul_of_nonneg_left h1 hb.le
  have h3 : b * (a / b) = a := by field_simp
  linarith

theorem neg_lt_jsRem {a b : ℚ} (ha : a < 0) (hb : 0 < b) : -b < jsRem a b := by
  have hq : a / b < 0 := div_neg_of_neg_of_pos ha hb
  rw [jsRem, jsTrunc_neg_eq hq]
  have h1 : (⌈a / b⌉ : ℚ) < a / b + 1 := Int.ceil_lt_add_one _
  have h2 : b * (⌈a / b⌉ : ℚ) < b * (a / b + 1) := mul_lt_mul_of_pos_left h1 hb
  have h3 : b * (a / b) = a := by field_simp
  nlinarith

theorem jsRem_bounds (a b : ℚ) (hb : 0 < b) : -b < jsRem a b ∧ jsRem a b < b := by
  rcases le_or_lt 0 a with ha | ha
  · exact ⟨lt_of_lt_of_le (by linarith) (jsRem_nonneg ha hb),
      jsRem_lt ha hb⟩
  · exact ⟨neg_lt_jsRem ha hb, lt_of_le_of_lt (jsRem_le_zero ha hb) hb⟩

theorem wrap1440_nonneg (mins : ℚ) : 0 ≤ wrap1440 mins := by
  have h := jsRem_bounds mins 1440 (by norm_num)
  exact jsRem_nonneg (by linarith [h.1]) (by norm_num)

theorem wrap1440_lt (mins : ℚ) : wrap1440 mins < 1440 := by
  have h := jsRem_bounds mins 1440 (by norm_num)
  exact jsRem_lt (by linarith [h.1]) (by norm_num)

theorem toTimePair_bounds (mins : ℚ) :
    0 ≤ (toTimePair mins).1 ∧ (toTimePair mins).1 < 24 ∧
    0 ≤ (toTimePair mins).2 ∧ (toTimePair mins).2 < 60 := by
  have h0 := wrap1440_nonneg mins
  have h1 := wrap1440_lt mins
  refine ⟨?_, ?_, ?_, ?_⟩
  · exact Int.floor_nonneg.mpr (div_nonneg h0 (by norm_num))
  · refine Int.floor_lt.mpr ?_
    rw [div_lt_iff₀ (by norm_num)]
    push_cast
    linarith
  · exact Int.floor_nonneg.mpr (jsRem_nonneg h0 (by norm_num))
  · refine Int.floor_lt.mpr ?_
    push_cast
    exact jsRem_lt h0 (by norm_num)

theorem timeString_valid {t : Time}
    (h : 0 ≤ t.1 ∧ t.1 < 24 ∧ 0 ≤ t.2 ∧ t.2 < 60) :
    validHHMM (timeString t) := by
  refine ⟨t.1.toNat, t.2.toNat, ?_, ?_, rfl⟩ <;> omega

/-- C6: for every latitude (including values near `±90°`), longitude,
date and timezone offset, `calculateSunTimes` cannot fail: the
hour-angle cosine is clamped into `[-1, 1]` before `acos`, and the
resulting sunrise and sunset are valid times — hour in `[0, 24)`,
minute in `[0, 60)` — whose renderings are valid zero-padded `HH:MM`
strings (degenerate values rather than an error). -/
theorem C6_sun_times_safe (M : MathLib) (lat lng tz : ℚ) (doy : ℤ) :
    (∀ x : ℚ, -1 ≤ clamp x ∧ clamp x ≤ 1) ∧
    (0 ≤ (calculateSunTimes M lat lng doy tz).sunrise.1 ∧
      (calculateSunTimes M lat lng doy tz).sunrise.1 < 24 ∧
      0 ≤ (calculateSunTimes M lat lng doy tz).sunrise.2 ∧
      (calculateSunTimes M lat lng doy tz).sunrise.2 < 60) ∧
    (0 ≤ (calculateSunTimes M lat lng doy tz).sunset.1 ∧
      (calculateSunTimes M lat lng doy tz).sunset.1 < 24 ∧
      0 ≤ (calculateSunTimes M lat lng doy tz).sunset.2 ∧
      (calculateSunTimes M lat lng doy tz).sunset.2 < 60) ∧
    validHHMM (timeString (calculateSunTimes M lat lng doy tz).sunrise) ∧
    validHHMM (timeString (calculateSunTimes M lat lng doy tz).sunset) := by
  refine ⟨fun x => ⟨le_max_left _ _, max_le (by norm_num) (min_le_left _ _)⟩,
    ?_, ?_, ?_, ?_⟩
  · exact toTimePair_bounds _
  · exact toTimePair_bounds _
  · exact timeString_valid (toTimePair_bounds _)
  · exact timeString_valid (toTimePair_bounds _)

end NightGuard
